import Mathlib

/-
Verification of the scan engine in `app/core/engine.py`: the whitespace
tokenizer, the shunting-yard parser, the RPN evaluator, the `LogicParser`
session (`evaluate`, `set_variable`) and `ScanEngine.run_scan`.

The Python code builds deferred polars expressions; we model a polars
expression as the inductive `PExpr` and give it per-row semantics over a
columnar `DataFrame`.  Numeric cells are modelled as rationals (the source
operates on 64-bit floats; every computation appearing in a theorem below
is exact in both).  A missing value (polars `null`) is `none`.  Python
exceptions are modelled by `Except Err`; the constructors of `Err`
distinguish the error messages raised explicitly by the source from raw
exceptions (tuple-unpack `ValueError`, `int()` conversion failure, and
`list.pop` on an empty list, i.e. `IndexError`).
-/

set_option maxHeartbeats 1600000

namespace TbotEngine

/-! ### Python string primitives used by the source -/

/-- Split a character list into the maximal chunks lying between
separator characters (a separator at either end or two adjacent
separators produce an empty chunk). -/
def chunksBy (p : Char → Bool) : List Char → List (List Char)
  | [] => [[]]
  | c :: cs =>
    match chunksBy p cs with
    | [] => [[]]
    | hd :: tl => if p c then [] :: hd :: tl else (c :: hd) :: tl

/-- Python `str.split()` with no argument: split on whitespace runs,
dropping empty pieces.  Used by `LogicParser._parse_tokens`. -/
def tokenize (s : String) : List String :=
  ((chunksBy Char.isWhitespace s.toList).filter (fun t => t ≠ [])).map String.mk

/-- Value of a list of ASCII digits, read in base 10. -/
def digitsValL (l : List Char) : Nat :=
  l.foldl (fun acc c => acc * 10 + (c.toNat - 48)) 0

/-- Value of a string of ASCII digits, read in base 10. -/
def digitsVal (s : String) : Nat :=
  digitsValL s.toList

/-- Split at the first occurrence of `c`: the characters before it and
the characters after it, or `none` when `c` does not occur. -/
def breakAt (c : Char) : List Char → Option (List Char × List Char)
  | [] => none
  | d :: ds =>
    if d = c then some ([], ds)
    else (breakAt c ds).map (fun p => (d :: p.1, p.2))

/-- Python `s.replace('.', '', 1)`: remove the first dot, if any. -/
def removeFirstDot (s : String) : String :=
  match breakAt '.' s.toList with
  | none => s
  | some (a, b) => String.mk (a ++ b)

/-- Python `s.isdigit()` restricted to ASCII: nonempty and all digits. -/
def pyIsDigit (s : String) : Bool :=
  s.toList ≠ [] && s.toList.all Char.isDigit

/-- The numeric-literal test of the source:
`token.replace('.', '', 1).isdigit()`. -/
def pyIsNumber (t : String) : Bool :=
  pyIsDigit (removeFirstDot t)

/-- Python `float(token)` on a token accepted by `pyIsNumber`:
digits with at most one dot. -/
def pyFloat (s : String) : ℚ :=
  match breakAt '.' s.toList with
  | none => (digitsVal s : ℚ)
  | some (a, b) => (digitsValL a : ℚ) + (digitsValL b : ℚ) / (10 ^ b.length : ℚ)

/-- Python `s.strip(chars)` generalised to a predicate: drop the matching
characters from both ends. -/
def pyStrip (s : String) (p : Char → Bool) : String :=
  String.mk (((s.toList.dropWhile p).reverse.dropWhile p).reverse)

/-- Python `int(s)`: optional sign followed by digits (after stripping
whitespace); anything else raises `ValueError`, modelled as `none`. -/
def pyInt? (s : String) : Option Int :=
  match (pyStrip s Char.isWhitespace).toList with
  | '-' :: rest => if rest ≠ [] ∧ rest.all Char.isDigit
      then some (-(digitsValL rest : Int)) else none
  | '+' :: rest => if rest ≠ [] ∧ rest.all Char.isDigit
      then some ((digitsValL rest : Int)) else none
  | rest => if rest ≠ [] ∧ rest.all Char.isDigit
      then some ((digitsValL rest : Int)) else none

/-- Numeric core of Python `float(s)`: digits with at most one dot and at
least one digit. -/
def floatCore (l : List Char) : Option ℚ :=
  match breakAt '.' l with
  | none => if l ≠ [] ∧ l.all Char.isDigit then some ((digitsValL l : ℚ)) else none
  | some (a, b) =>
      if (a ++ b) ≠ [] ∧ a.all Char.isDigit ∧ b.all Char.isDigit
      then some ((digitsValL a : ℚ) + (digitsValL b : ℚ) / (10 ^ b.length : ℚ))
      else none

/-- Python `float(s)` on an arbitrary argument string: optional sign and
digits with at most one dot, at least one digit; otherwise `ValueError`
(`none`).  (Exponent and special forms never occur in the source's data.) -/
def pyFloatArg? (s : String) : Option ℚ :=
  match (pyStrip s Char.isWhitespace).toList with
  | '-' :: rest => (floatCore rest).map (fun q => -q)
  | '+' :: rest => floatCore rest
  | l => floatCore l

/-- Whether the first list starts with the second. -/
def headAgrees : List Char → List Char → Bool
  | [], _ => true
  | _ :: _, [] => false
  | c :: cs, d :: ds => c = d && headAgrees cs ds

/-- Occurrence of `sep` anywhere in `l` (at any offset). -/
def hasSub (sep : List Char) : List Char → Bool
  | [] => headAgrees sep []
  | c :: cs => headAgrees sep (c :: cs) || hasSub sep cs

/-- Python `pat in s` (substring membership). -/
def containsSub (s pat : String) : Bool :=
  hasSub pat.toList s.toList

/-- Python `c in s` for a single character. -/
def hasChar (s : String) (c : Char) : Bool :=
  s.toList.contains c

/-- Python `s.endswith(c)` for a single character. -/
def lastIs (s : String) (c : Char) : Bool :=
  match s.toList.getLast? with
  | some d => d = c
  | none => false

/-- Python `s.split(c, 1)` for a single-character separator: the part
before the first occurrence and everything after it (`(s, "")` when `c`
does not occur, a case the source never reaches under its guards). -/
def pySplit1 (s : String) (c : Char) : String × String :=
  match breakAt c s.toList with
  | none => (s, "")
  | some (a, b) => (String.mk a, String.mk b)

/-- Python `s.split(c)` for a single-character separator: every chunk,
empties included. -/
def splitAllAt (c : Char) : List Char → List (List Char)
  | [] => [[]]
  | d :: ds =>
    match splitAllAt c ds with
    | [] => [[]]
    | hd :: tl => if d = c then [] :: hd :: tl else (d :: hd) :: tl

/-! ### Association lists for Python dicts -/

/-- Lookup in an association list (Python `d[k]` / `k in d`). -/
def alookup {α : Type} : List (String × α) → String → Option α
  | [], _ => none
  | (k, v) :: rest, key => if k = key then some v else alookup rest key

/-- Python `d[k] = v`: replace the binding if present, else append. -/
def aupdate {α : Type} : List (String × α) → String → α → List (String × α)
  | [], k, v => [(k, v)]
  | (k', v') :: rest, k, v =>
      if k' = k then (k, v) :: rest else (k', v') :: aupdate rest k v

/-! ### Data model: cells, rows, data frames, deferred expressions -/

/-- A concrete cell value: a number (f64 in the source, modelled as ℚ) or a
boolean. -/
inductive Val : Type
  | num (q : ℚ)
  | bool (b : Bool)
  deriving DecidableEq, Repr

/-- A polars cell: a value or `null`. -/
abbrev Cell := Option Val

/-- One bar of the window: column name to cell. -/
abbrev Row := List (String × Cell)

/-- The columnar data window (`pl.DataFrame`). -/
structure DataFrame : Type where
  colNames : List String
  rows : List Row
  deriving DecidableEq, Repr

/-- `pl.DataFrame()`: the empty frame with no columns. -/
def emptyDF : DataFrame := ⟨[], []⟩

/-- The cell of column `name` at row `i`. -/
def cellVal (df : DataFrame) (i : Nat) (name : String) : Cell :=
  (df.rows.get? i).bind (fun r => (alookup r name).join)

/-- A deferred polars expression, as built by the source: literals
(`pl.lit`), column references (`pl.col`), lag transforms (`Expr.shift`)
and binary operators applied through the `OPERATORS` table. -/
inductive PExpr : Type
  | lit (v : ℚ)
  | col (name : String)
  | shift (e : PExpr) (n : Int)
  | binop (op : String) (l r : PExpr)
  deriving DecidableEq, Repr

/-- Kleene conjunction of boolean cells (polars `&`). -/
def kleeneAnd : Cell → Cell → Cell
  | some (Val.bool false), _ => some (Val.bool false)
  | _, some (Val.bool false) => some (Val.bool false)
  | some (Val.bool true), some (Val.bool true) => some (Val.bool true)
  | _, _ => none

/-- Kleene disjunction of boolean cells (polars `|`). -/
def kleeneOr : Cell → Cell → Cell
  | some (Val.bool true), _ => some (Val.bool true)
  | _, some (Val.bool true) => some (Val.bool true)
  | some (Val.bool false), some (Val.bool false) => some (Val.bool false)
  | _, _ => none

/-- Elementwise application of one operator from the `OPERATORS` table to
two cells.  Arithmetic and comparisons propagate `null`; a type mismatch
yields `null` (no theorem below exercises one).  Division by zero (f64
infinity in the source, reached by no theorem below) is modelled as
missing. -/
def applyOp (op : String) (l r : Cell) : Cell :=
  match op, l, r with
  | "+", some (Val.num a), some (Val.num b) => some (Val.num (a + b))
  | "-", some (Val.num a), some (Val.num b) => some (Val.num (a - b))
  | "*", some (Val.num a), some (Val.num b) => some (Val.num (a * b))
  | "/", some (Val.num a), some (Val.num b) =>
      if b = 0 then none else some (Val.num (a / b))
  | ">", some (Val.num a), some (Val.num b) => some (Val.bool (decide (a > b)))
  | ">=", some (Val.num a), some (Val.num b) => some (Val.bool (decide (a ≥ b)))
  | "<", some (Val.num a), some (Val.num b) => some (Val.bool (decide (a < b)))
  | "<=", some (Val.num a), some (Val.num b) => some (Val.bool (decide (a ≤ b)))
  | "==", some (Val.num a), some (Val.num b) => some (Val.bool (decide (a = b)))
  | "==", some (Val.bool a), some (Val.bool b) => some (Val.bool (a == b))
  | "!=", some (Val.num a), some (Val.num b) => some (Val.bool (decide (a ≠ b)))
  | "!=", some (Val.bool a), some (Val.bool b) => some (Val.bool (a != b))
  | "AND", a, b => kleeneAnd a b
  | "OR", a, b => kleeneOr a b
  | _, _, _ => none

/-- Per-row semantics of a deferred expression over a data frame.
`shift n` reads the value `n` rows earlier (`null` outside the frame). -/
def evalExpr (df : DataFrame) : PExpr → Nat → Cell
  | PExpr.lit v, _ => some (Val.num v)
  | PExpr.col name, i => cellVal df i name
  | PExpr.shift e n, i =>
      if 0 ≤ (i : Int) - n ∧ (i : Int) - n < (df.rows.length : Int)
      then evalExpr df e ((i : Int) - n).toNat
      else none
  | PExpr.binop op l r, i => applyOp op (evalExpr df l i) (evalExpr df r i)

/-- The boolean/value series produced by applying an expression to every
row of the frame (`df.with_columns(result=expr)` followed by
`get_column("result")`). -/
def seriesOf (df : DataFrame) (e : PExpr) : List Cell :=
  (List.range df.rows.length).map (evalExpr df e)

/-! ### Errors -/

/-- Exceptions observable from the engine.  The first six constructors are
the `ValueError`s raised explicitly by the source (the spec's taxonomy);
`unpackError`, `intConversion` and `stackUnderflow` model raw Python
errors (tuple unpack, `int()`, `list.pop` on an empty list). -/
inductive Err : Type
  | mismatchedParens
  | unknownVariableForShift (name : String)
  | argumentConversion (fname : String)
  | unknownIndicator (fname : String)
  | unknownTokenOrVariable (tok : String)
  | invalidExpression
  | unpackError
  | intConversion (s : String)
  | stackUnderflow
  deriving DecidableEq, Repr

/-- Membership in the spec's error taxonomy (§7): true exactly for the
errors the source raises deliberately. -/
def isTaxonomyErr : Err → Bool
  | Err.mismatchedParens => true
  | Err.unknownVariableForShift _ => true
  | Err.argumentConversion _ => true
  | Err.unknownIndicator _ => true
  | Err.unknownTokenOrVariable _ => true
  | Err.invalidExpression => true
  | Err.unpackError => false
  | Err.intConversion _ => false
  | Err.stackUnderflow => false

/-! ### The operator table -/

/-- Membership in the `OPERATORS` dict of the source. -/
def isOp (t : String) : Bool :=
  t = "+" || t = "-" || t = "*" || t = "/" || t = ">" || t = ">=" ||
  t = "<" || t = "<=" || t = "==" || t = "!=" || t = "AND" || t = "OR"

/-- The precedence column of the `OPERATORS` dict. -/
def opPrec (t : String) : Int :=
  if t = "*" || t = "/" then 2
  else if t = "+" || t = "-" then 1
  else if t = "AND" || t = "OR" then -1
  else 0

/-! ### Parser state and the shunting-yard pass -/

/-- The indicator registry: name to a function from numeric parameters to
a deferred expression (external, opaque, pure). -/
abbrev Indicators := List (String × (List ℚ → PExpr))

/-- The state of one `LogicParser` instance: the registry, the owned data
window and the variable bindings. -/
structure PState : Type where
  indicators : Indicators
  data : DataFrame
  vars : List (String × PExpr)

/-- An entry of the RPN output queue: an operator name or a built
expression. -/
inductive QItem : Type
  | op (s : String)
  | expr (e : PExpr)
  deriving DecidableEq, Repr

/-- The stripped comma-separated argument strings of an indicator-call
token, as computed by the source
(`args_str[:-1]` then split on commas, each piece stripped). -/
def argsOf (t : String) : List String :=
  (splitAllAt ',' (pySplit1 t '(').2.toList.dropLast).map
    (fun a => pyStrip (String.mk a) Char.isWhitespace)

/-- Convert every argument with `float` (the source's list comprehension);
`none` when any conversion raises. -/
def allFloats : List String → Option (List ℚ)
  | [] => some []
  | a :: rest => do
      let q ← pyFloatArg? a
      let qs ← allFloats rest
      pure (q :: qs)

/-- The characters of the string `"shift()"`, the argument of the
source's `strip`. -/
def shiftStripSet (c : Char) : Bool :=
  c = 's' || c = 'h' || c = 'i' || c = 'f' || c = 't' || c = '(' || c = ')'

/-- The operator-arrival loop: pop stack tops to the output while the top
is not `'('` and has precedence at least that of the incoming operator.
Returns the extended output and the remaining stack. -/
def drainOps (p : Int) : List String → List QItem → List QItem × List String
  | [], out => (out, [])
  | top :: rest, out =>
      if top ≠ "(" ∧ opPrec top ≥ p
      then drainOps p rest (out ++ [QItem.op top])
      else (out, top :: rest)

/-- The closing-parenthesis loop of the source (unreachable, see
`syGo`): pop to the output until `'('`, which is discarded; an exhausted
stack is `MismatchedParentheses`. -/
def drainParen : List String → List QItem → Except Err (List QItem × List String)
  | [], _ => Except.error Err.mismatchedParens
  | top :: rest, out =>
      if top = "(" then Except.ok (out, rest)
      else drainParen rest (out ++ [QItem.op top])

/-- The final drain of the operator stack: a leftover `'('` is
`MismatchedParentheses`. -/
def drainAll : List String → List QItem → Except Err (List QItem)
  | [], out => Except.ok out
  | top :: rest, out =>
      if top = "(" then Except.error Err.mismatchedParens
      else drainAll rest (out ++ [QItem.op top])

/-- One-to-one translation of the token loop of
`LogicParser._shunting_yard`, with the output queue and operator stack as
accumulators.  Branch order follows the source exactly; in particular the
`endsWith ")"` test precedes the bare-`")"` test, so the latter branch is
unreachable, as in the source. -/
def syGo (st : PState) : List String → List QItem → List String → Except Err (List QItem)
  | [], out, stack => drainAll stack out
  | t :: rest, out, stack =>
      if pyIsNumber t then
        syGo st rest (out ++ [QItem.expr (PExpr.lit (pyFloat t))]) stack
      else if t ∈ st.data.colNames then
        syGo st rest (out ++ [QItem.expr (PExpr.col t)]) stack
      else if lastIs t ')' then
        if hasChar t '.' && containsSub t "shift" then
          let pieces := pySplit1 t '.' 
          match pyInt? (pyStrip pieces.2 shiftStripSet) with
          | none => Except.error (Err.intConversion (pyStrip pieces.2 shiftStripSet))
          | some n =>
            match alookup st.vars pieces.1 with
            | some e => syGo st rest (out ++ [QItem.expr (PExpr.shift e n)]) stack
            | none => Except.error (Err.unknownVariableForShift pieces.1)
        else
          if hasChar t '(' then
            let fname := (pySplit1 t '(').1
            match alookup st.indicators fname with
            | some f =>
              match allFloats (argsOf t) with
              | some vals => syGo st rest (out ++ [QItem.expr (f vals)]) stack
              | none => Except.error (Err.argumentConversion fname)
            | none => Except.error (Err.unknownIndicator fname)
          else Except.error Err.unpackError
      else if isOp t then
        let drained := drainOps (opPrec t) stack out
        syGo st rest drained.1 (t :: drained.2)
      else if t = "(" then
        syGo st rest out (t :: stack)
      else if t = ")" then
        match drainParen stack out with
        | Except.ok (out2, stack2) => syGo st rest out2 stack2
        | Except.error e => Except.error e
      else
        match alookup st.vars t with
        | some e => syGo st rest (out ++ [QItem.expr e]) stack
        | none => Except.error (Err.unknownTokenOrVariable t)

/-- `LogicParser._shunting_yard`. -/
def shuntingYard (st : PState) (tokens : List String) : Except Err (List QItem) :=
  syGo st tokens [] []

/-- The stack loop of `LogicParser._evaluate_rpn`: operators pop the right
operand first, then the left; a pop from an empty list is the raw
`IndexError`; at the end anything but a singleton stack is
`InvalidExpressionError`. -/
def rpnGo : List QItem → List PExpr → Except Err PExpr
  | [], [e] => Except.ok e
  | [], _ => Except.error Err.invalidExpression
  | QItem.op s :: rest, r :: l :: stk => rpnGo rest (PExpr.binop s l r :: stk)
  | QItem.op _ :: _, _ => Except.error Err.stackUnderflow
  | QItem.expr e :: rest, stk => rpnGo rest (e :: stk)

/-- `LogicParser._evaluate_rpn`. -/
def evaluateRPN (q : List QItem) : Except Err PExpr :=
  rpnGo q []

/-! ### The LogicParser session -/

/-- `LogicParser.evaluate`: tokenize, shunting-yard, RPN evaluation, then
application of the final expression to the owned window.  The method
writes neither `self.data` nor `self.variables`; the state it leaves
behind is returned alongside the series. -/
def evaluate (st : PState) (expression : String) : Except Err (List Cell × PState) := do
  let rpn ← shuntingYard st (tokenize expression)
  let e ← evaluateRPN rpn
  Except.ok (seriesOf st.data e, st)

/-- `LogicParser.set_variable`: parse the expression and store the
resulting deferred expression under `var_name`. -/
def set_variable (st : PState) (varName expression : String) : Except Err PState := do
  let rpn ← shuntingYard st (tokenize expression)
  let e ← evaluateRPN rpn
  Except.ok { st with vars := aupdate st.vars varName e }

/-! ### The scan engine -/

/-- A strategy as consumed by `run_scan`: ordered variable declarations
and the final condition string. -/
structure Strategy : Type where
  vars : List (String × String)
  condition : String

/-- The variable-binding loop of `run_scan` (step 3).  It sits outside the
source's `try` block, so any error propagates. -/
def bindVars (st : PState) : List (String × String) → Except Err PState
  | [] => Except.ok st
  | (n, e) :: rest => do bindVars (← set_variable st n e) rest

/-- True when every mask cell is boolean or `null`; a numeric mask makes
polars `filter` raise (inside the source's `try`). -/
def maskIsBool (mask : List Cell) : Bool :=
  mask.all (fun c => match c with
    | some (Val.num _) => false
    | _ => true)

/-- `ohlcv_df.filter(mask)`: keep exactly the rows whose mask cell is
`true` (`false` and `null` rows are dropped). -/
def filterDF (df : DataFrame) (mask : List Cell) : DataFrame :=
  ⟨df.colNames,
   ((df.rows.zip mask).filter (fun p => p.2 = some (Val.bool true))).map Prod.fst⟩

/-- `ScanEngine.run_scan`, with the fetched window passed in for the
awaited `_fetch_data` result (the broker is an external collaborator).
An empty window returns the empty frame.  Variable binding runs before
the `try` block: its errors propagate out.  The `try` block covers only
the final-condition evaluation and the filter; any error there yields the
empty frame. -/
def run_scan (ind : Indicators) (ohlcv : DataFrame) (strat : Strategy) :
    Except Err DataFrame :=
  if ohlcv.rows.isEmpty then Except.ok emptyDF
  else
    match bindVars ⟨ind, ohlcv, []⟩ strat.vars with
    | Except.error e => Except.error e
    | Except.ok st =>
      match evaluate st strat.condition with
      | Except.error _ => Except.ok emptyDF
      | Except.ok (mask, _) =>
          if maskIsBool mask then Except.ok (filterDF ohlcv mask)
          else Except.ok emptyDF

/-! ### Concrete fixtures for witnesses and counterexamples -/

/-- A two-bar window with `close = [1, 2]`. -/
def sampleDF : DataFrame :=
  ⟨["close"],
   [[("close", some (Val.num 1))],
    [("close", some (Val.num 2))]]⟩

/-- A six-bar window with `close = [101, 102, 103, 104, 105, 108]`. -/
def sampleDF6 : DataFrame :=
  ⟨["close"],
   [[("close", some (Val.num 101))],
    [("close", some (Val.num 102))],
    [("close", some (Val.num 103))],
    [("close", some (Val.num 104))],
    [("close", some (Val.num 105))],
    [("close", some (Val.num 108))]]⟩

/-- A registry holding one indicator named `bar`. -/
def regBar : Indicators := [("bar", fun _ => PExpr.lit 0)]

/-- A session state with one pre-existing binding `y`. -/
def sessionSt : PState := ⟨[], sampleDF, [("y", PExpr.lit 1)]⟩

/-- The state `sessionSt` after binding `x` to `close`. -/
def sessionSt1 : PState :=
  ⟨[], sampleDF, [("y", PExpr.lit 1), ("x", PExpr.col "close")]⟩

/-- A strategy with no variables whose condition is true on the first bar
of `sampleDF` only. -/
def stratFirstBar : Strategy := ⟨[], "close < 2"⟩

/-- A strategy whose variable expression is an unknown token. -/
def stratBadVar : Strategy := ⟨[("x", "bogus")], "close > 0"⟩

/-- A strategy whose condition is an unknown token. -/
def stratBadCond : Strategy := ⟨[], "oops"⟩

/-! ### Helper lemmas: `Except`, association lists, single parser steps -/

theorem except_bind_ok {α β ε : Type} (a : α) (f : α → Except ε β) :
    (Except.ok a : Except ε α) >>= f = f a := rfl

theorem except_bind_err {α β ε : Type} (e : ε) (f : α → Except ε β) :
    (Except.error e : Except ε α) >>= f = Except.error e := rfl

theorem alookup_aupdate {α : Type} (l : List (String × α)) (k : String) (v : α)
    (m : String) :
    alookup (aupdate l k v) m = if k = m then some v else alookup l m := by
  induction l with
  | nil => simp [aupdate, alookup]
  | cons hd tl ih =>
    obtain ⟨k', v'⟩ := hd
    simp only [aupdate]
    by_cases hk : k' = k
    · subst hk
      simp only [if_pos rfl, alookup]
      by_cases hm : k' = m <;> simp [hm]
    · simp only [if_neg hk, alookup, ih]
      by_cases hm : k' = m <;> by_cases hkm : k = m
      · exact absurd (hm.trans hkm.symm) hk
      · simp [hm, hkm]
      · simp [hm, hkm]
      · simp [hm, hkm]

theorem syGo_nil (st : PState) (out : List QItem) (stack : List String) :
    syGo st [] out stack = drainAll stack out := by
  simp [syGo]

theorem syGo_num (st : PState) (t : String) (rest : List String)
    (out : List QItem) (stack : List String) (h : pyIsNumber t = true) :
    syGo st (t :: rest) out stack =
      syGo st rest (out ++ [QItem.expr (PExpr.lit (pyFloat t))]) stack := by
  simp [syGo, h]

theorem syGo_col (st : PState) (t : String) (rest : List String)
    (out : List QItem) (stack : List String)
    (h1 : pyIsNumber t = false) (h2 : t ∈ st.data.colNames) :
    syGo st (t :: rest) out stack =
      syGo st rest (out ++ [QItem.expr (PExpr.col t)]) stack := by
  simp [syGo, h1, h2]

theorem syGo_op (st : PState) (t : String) (rest : List String)
    (out : List QItem) (stack : List String)
    (h1 : pyIsNumber t = false) (h2 : t ∉ st.data.colNames)
    (h3 : lastIs t ')' = false) (h4 : isOp t = true) :
    syGo st (t :: rest) out stack =
      syGo st rest (drainOps (opPrec t) stack out).1
        (t :: (drainOps (opPrec t) stack out).2) := by
  simp [syGo, h1, h2, h3, h4]

theorem syGo_shift (st : PState) (t : String) (rest : List String)
    (out : List QItem) (stack : List String) (n : Int) (e : PExpr)
    (h1 : pyIsNumber t = false) (h2 : t ∉ st.data.colNames)
    (h3 : lastIs t ')' = true)
    (h4 : (hasChar t '.' && containsSub t "shift") = true)
    (h5 : pyInt? (pyStrip (pySplit1 t '.').2 shiftStripSet) = some n)
    (h6 : alookup st.vars (pySplit1 t '.').1 = some e) :
    syGo st (t :: rest) out stack =
      syGo st rest (out ++ [QItem.expr (PExpr.shift e n)]) stack := by
  simp [syGo, h1, h2, h3, h4, h5, h6]

theorem syGo_shift_unknown (st : PState) (t : String) (rest : List String)
    (out : List QItem) (stack : List String) (n : Int)
    (h1 : pyIsNumber t = false) (h2 : t ∉ st.data.colNames)
    (h3 : lastIs t ')' = true)
    (h4 : (hasChar t '.' && containsSub t "shift") = true)
    (h5 : pyInt? (pyStrip (pySplit1 t '.').2 shiftStripSet) = some n)
    (h6 : alookup st.vars (pySplit1 t '.').1 = none) :
    syGo st (t :: rest) out stack =
      Except.error (Err.unknownVariableForShift (pySplit1 t '.').1) := by
  simp [syGo, h1, h2, h3, h4, h5, h6]

theorem evaluate_eq (st : PState) (s : String) (q : List QItem) (e : PExpr)
    (h1 : shuntingYard st (tokenize s) = Except.ok q)
    (h2 : evaluateRPN q = Except.ok e) :
    evaluate st s = Except.ok (seriesOf st.data e, st) := by
  simp [evaluate, h1, h2, except_bind_ok]

theorem evaluate_err_sy (st : PState) (s : String) (er : Err)
    (h1 : shuntingYard st (tokenize s) = Except.error er) :
    evaluate st s = Except.error er := by
  simp [evaluate, h1, except_bind_err]

theorem evaluate_err_rpn (st : PState) (s : String) (q : List QItem) (er : Err)
    (h1 : shuntingYard st (tokenize s) = Except.ok q)
    (h2 : evaluateRPN q = Except.error er) :
    evaluate st s = Except.error er := by
  simp [evaluate, h1, h2, except_bind_ok, except_bind_err]

theorem set_variable_eq (st : PState) (n s : String) (q : List QItem) (e : PExpr)
    (h1 : shuntingYard st (tokenize s) = Except.ok q)
    (h2 : evaluateRPN q = Except.ok e) :
    set_variable st n s =
      Except.ok { st with vars := aupdate st.vars n e } := by
  simp [set_variable, h1, h2, except_bind_ok]

theorem filterDF_rows_sub (df : DataFrame) (mask : List Cell) :
    ∀ row ∈ (filterDF df mask).rows, row ∈ df.rows := by
  intro row hrow
  simp only [filterDF, List.mem_map] at hrow
  obtain ⟨p, hp, rfl⟩ := hrow
  exact (List.of_mem_zip (List.mem_of_mem_filter hp)).1

theorem applyOp_add (a b : ℚ) :
    applyOp "+" (some (Val.num a)) (some (Val.num b)) = some (Val.num (a + b)) := rfl

theorem applyOp_sub (a b : ℚ) :
    applyOp "-" (some (Val.num a)) (some (Val.num b)) = some (Val.num (a - b)) := rfl

theorem applyOp_mul (a b : ℚ) :
    applyOp "*" (some (Val.num a)) (some (Val.num b)) = some (Val.num (a * b)) := rfl

/-! ### Claim C10 -/

/-- C10: the RPN evaluator pops its two operands without checking stack
depth, so on the valid-token input `"close +"` (whose RPN form places
the operator after a single operand) evaluation fails with the raw
stack-underflow error (`IndexError` from `list.pop`), which is not one of
the spec's taxonomy errors such as `InvalidExpressionError`. -/
theorem rpn_pops_unchecked_underflow_on_close_plus :
    (evaluate ⟨[], sampleDF, []⟩ "close +").map Prod.fst =
      Except.error Err.stackUnderflow ∧
    isTaxonomyErr Err.stackUnderflow = false ∧
    Err.stackUnderflow ≠ Err.invalidExpression := by
  refine ⟨rfl, rfl, ?_⟩
  decide

/-! ### Claim C3 -/

/-- C3: the `')'` handler of the shunting-yard loop is unreachable: every
token ending in `')'`, the bare `')'` included, is captured first by the
function-call branch, where splitting `')'` on `'('` raises a raw
tuple-unpack `ValueError`.  Balanced parentheses therefore crash with
`unpackError` instead of grouping, and an unmatched closing parenthesis
raises `unpackError` instead of `MismatchedParentheses`; only a leftover
opening parenthesis produces `MismatchedParentheses` as documented. -/
theorem paren_token_hits_unpack_error :
    (evaluate ⟨[], sampleDF, []⟩ "( close )").map Prod.fst =
      Except.error Err.unpackError ∧
    (evaluate ⟨[], sampleDF, []⟩ "close )").map Prod.fst =
      Except.error Err.unpackError ∧
    (evaluate ⟨[], sampleDF, []⟩ "( close").map Prod.fst =
      Except.error Err.mismatchedParens ∧
    isTaxonomyErr Err.unpackError = false := by
  exact ⟨rfl, rfl, rfl, rfl⟩

/-! ### Claim C1 -/

/-- C1 counterexample: on the window `close = [1, 2]` with condition
`"close < 2"` the boolean column's last value is `false`, so per the
claim the instrument must be absent from the result; `run_scan` instead
returns the first (non-final) row. -/
theorem run_scan_keeps_nonfinal_row :
    run_scan [] sampleDF stratFirstBar =
      Except.ok ⟨["close"], [[("close", some (Val.num 1))]]⟩ ∧
    (evaluate ⟨[], sampleDF, []⟩ "close < 2").map Prod.fst =
      Except.ok [some (Val.bool true), some (Val.bool false)] := by
  exact ⟨rfl, rfl⟩

/-- C1 amended: when the window is nonempty, variable binding succeeds
and the condition evaluates to a boolean column, `run_scan` returns the
window filtered by that column — exactly the rows (taken whole from the
window) on which the condition is true, not only the window's final row,
and regardless of the column's last value. -/
theorem run_scan_filters_all_true_rows (ind : Indicators) (df : DataFrame)
    (strat : Strategy) (st st2 : PState) (mask : List Cell)
    (hne : df.rows.isEmpty = false)
    (hb : bindVars ⟨ind, df, []⟩ strat.vars = Except.ok st)
    (he : evaluate st strat.condition = Except.ok (mask, st2))
    (hm : maskIsBool mask = true) :
    run_scan ind df strat = Except.ok (filterDF df mask) ∧
    ∀ row ∈ (filterDF df mask).rows, row ∈ df.rows := by
  refine ⟨?_, filterDF_rows_sub df mask⟩
  simp [run_scan, hne, hb, he, hm]

/-- C1 witness: the amended statement at the concrete window
`close = [1, 2]` and condition `"close < 2"`. -/
theorem run_scan_filters_all_true_rows_witness :
    sampleDF.rows.isEmpty = false ∧
    run_scan [] sampleDF stratFirstBar =
      Except.ok (filterDF sampleDF [some (Val.bool true), some (Val.bool false)]) ∧
    [("close", some (Val.num 1))] ∈ sampleDF.rows := by
  have h := run_scan_filters_all_true_rows [] sampleDF stratFirstBar
    ⟨[], sampleDF, []⟩ ⟨[], sampleDF, []⟩
    [some (Val.bool true), some (Val.bool false)] rfl rfl rfl rfl
  exact ⟨rfl, h.1, h.2 _ (by decide)⟩

/-! ### Claim C2 -/

/-- C2 counterexample: a strategy whose variable expression is malformed
makes `run_scan` raise — the variable-binding loop runs before the
source's `try` block, so the exception propagates instead of being
converted to a `Skipped` outcome. -/
theorem run_scan_raises_on_bad_variable :
    run_scan [] sampleDF stratBadVar =
      Except.error (Err.unknownTokenOrVariable "bogus") := by
  exact rfl

/-- C2 amended: only exceptions raised while evaluating the final
condition (and filtering) are caught and converted to an empty result;
an exception raised while binding a variable propagates out of
`run_scan` unchanged (as does a data-fetch failure, which occurs before
the `try` block). -/
theorem run_scan_catches_condition_stage_only (ind : Indicators)
    (df : DataFrame) (strat : Strategy) (hne : df.rows.isEmpty = false) :
    (∀ e, bindVars ⟨ind, df, []⟩ strat.vars = Except.error e →
      run_scan ind df strat = Except.error e) ∧
    (∀ st e, bindVars ⟨ind, df, []⟩ strat.vars = Except.ok st →
      evaluate st strat.condition = Except.error e →
      run_scan ind df strat = Except.ok emptyDF) := by
  constructor
  · intro e hb
    simp [run_scan, hne, hb]
  · intro st e hb hc
    simp [run_scan, hne, hb, hc]

/-- C2 witness: the amended statement at the concrete window
`close = [1, 2]`, once with a malformed variable expression (the error
propagates) and once with a malformed condition (converted to the empty
frame). -/
theorem run_scan_catches_condition_stage_only_witness :
    sampleDF.rows.isEmpty = false ∧
    run_scan [] sampleDF stratBadVar =
      Except.error (Err.unknownTokenOrVariable "bogus") ∧
    run_scan [] sampleDF stratBadCond = Except.ok emptyDF := by
  refine ⟨rfl, ?_, ?_⟩
  · exact (run_scan_catches_condition_stage_only [] sampleDF stratBadVar rfl).1
      (Err.unknownTokenOrVariable "bogus") rfl
  · exact (run_scan_catches_condition_stage_only [] sampleDF stratBadCond rfl).2
      ⟨[], sampleDF, []⟩ (Err.unknownTokenOrVariable "oops") rfl rfl

/-! ### Claim C4 -/

/-- C4: the shunting-yard conversion and RPN evaluation honor the fixed
precedence table: on any window whose column names do not shadow the
operator symbols, the expression string `"2 + 3 * 4"` evaluates to `14`
on every row — `2 + (3 * 4)`, never `(2 + 3) * 4 = 20`. -/
theorem precedence_two_plus_three_times_four (ind : Indicators)
    (df : DataFrame) (vs : List (String × PExpr))
    (h1 : "+" ∉ df.colNames) (h2 : "*" ∉ df.colNames) :
    (evaluate ⟨ind, df, vs⟩ "2 + 3 * 4").map Prod.fst =
      Except.ok ((List.range df.rows.length).map (fun _ => some (Val.num 14))) := by
  have ht : tokenize "2 + 3 * 4" = ["2", "+", "3", "*", "4"] := by decide
  have hsy : shuntingYard ⟨ind, df, vs⟩ (tokenize "2 + 3 * 4") =
      Except.ok [QItem.expr (PExpr.lit 2), QItem.expr (PExpr.lit 3),
        QItem.expr (PExpr.lit 4), QItem.op "*", QItem.op "+"] := by
    unfold shuntingYard
    rw [ht]
    rw [syGo_num _ _ _ _ _ (by decide)]
    rw [syGo_op _ _ _ _ _ (by decide) h1 (by decide) (by decide)]
    rw [syGo_num _ _ _ _ _ (by decide)]
    rw [syGo_op _ _ _ _ _ (by decide) h2 (by decide) (by decide)]
    rw [syGo_num _ _ _ _ _ (by decide)]
    rw [syGo_nil]
    rfl
  have hrpn : evaluateRPN [QItem.expr (PExpr.lit 2), QItem.expr (PExpr.lit 3),
      QItem.expr (PExpr.lit 4), QItem.op "*", QItem.op "+"] =
      Except.ok (PExpr.binop "+" (PExpr.lit 2)
        (PExpr.binop "*" (PExpr.lit 3) (PExpr.lit 4))) := rfl
  rw [evaluate_eq _ _ _ _ hsy hrpn]
  show Except.ok (seriesOf df _) = _
  unfold seriesOf
  congr 1
  apply List.map_congr_left
  intro i _
  simp only [evalExpr, applyOp_add, applyOp_mul]
  norm_num

/-- C4 witness: the precedence theorem instantiated on the concrete
two-bar window `sampleDF`. -/
theorem precedence_two_plus_three_times_four_witness :
    "+" ∉ sampleDF.colNames ∧ "*" ∉ sampleDF.colNames ∧
    (evaluate ⟨[], sampleDF, []⟩ "2 + 3 * 4").map Prod.fst =
      Except.ok ((List.range sampleDF.rows.length).map
        (fun _ => some (Val.num 14))) := by
  exact ⟨by decide, by decide,
    precedence_two_plus_three_times_four [] sampleDF [] (by decide) (by decide)⟩

/-! ### Claim C5 -/

/-- C5: all operators are left-associative — an incoming operator pops a
stack top of greater or equal precedence, and the RPN evaluator pops the
right operand before the left — so `"10 - 3 - 2"` converts to the RPN
sequence `10 3 - 2 -` and evaluates to `(10 - 3) - 2 = 5` on every row,
never `10 - (3 - 2) = 9`. -/
theorem left_assoc_ten_minus_three_minus_two (ind : Indicators)
    (df : DataFrame) (vs : List (String × PExpr))
    (h : "-" ∉ df.colNames) :
    shuntingYard ⟨ind, df, vs⟩ ["10", "-", "3", "-", "2"] =
      Except.ok [QItem.expr (PExpr.lit 10), QItem.expr (PExpr.lit 3),
        QItem.op "-", QItem.expr (PExpr.lit 2), QItem.op "-"] ∧
    (∀ (l r : PExpr) (rest : List QItem) (stk : List PExpr),
      rpnGo (QItem.op "-" :: rest) (r :: l :: stk) =
        rpnGo rest (PExpr.binop "-" l r :: stk)) ∧
    (evaluate ⟨ind, df, vs⟩ "10 - 3 - 2").map Prod.fst =
      Except.ok ((List.range df.rows.length).map (fun _ => some (Val.num 5))) := by
  have ht : tokenize "10 - 3 - 2" = ["10", "-", "3", "-", "2"] := by decide
  have hsy : shuntingYard ⟨ind, df, vs⟩ (tokenize "10 - 3 - 2") =
      Except.ok [QItem.expr (PExpr.lit 10), QItem.expr (PExpr.lit 3),
        QItem.op "-", QItem.expr (PExpr.lit 2), QItem.op "-"] := by
    unfold shuntingYard
    rw [ht]
    rw [syGo_num _ _ _ _ _ (by decide)]
    rw [syGo_op _ _ _ _ _ (by decide) h (by decide) (by decide)]
    rw [syGo_num _ _ _ _ _ (by decide)]
    rw [syGo_op _ _ _ _ _ (by decide) h (by decide) (by decide)]
    rw [syGo_num _ _ _ _ _ (by decide)]
    rw [syGo_nil]
    rfl
  refine ⟨ht ▸ hsy, fun l r rest stk => rfl, ?_⟩
  have hrpn : evaluateRPN [QItem.expr (PExpr.lit 10), QItem.expr (PExpr.lit 3),
      QItem.op "-", QItem.expr (PExpr.lit 2), QItem.op "-"] =
      Except.ok (PExpr.binop "-"
        (PExpr.binop "-" (PExpr.lit 10) (PExpr.lit 3)) (PExpr.lit 2)) := rfl
  rw [evaluate_eq _ _ _ _ hsy hrpn]
  show Except.ok (seriesOf df _) = _
  unfold seriesOf
  congr 1
  apply List.map_congr_left
  intro i _
  simp only [evalExpr, applyOp_sub]
  norm_num

/-- C5 witness: the left-associativity theorem instantiated on the
concrete two-bar window `sampleDF`. -/
theorem left_assoc_ten_minus_three_minus_two_witness :
    "-" ∉ sampleDF.colNames ∧
    (evaluate ⟨[], sampleDF, []⟩ "10 - 3 - 2").map Prod.fst =
      Except.ok ((List.range sampleDF.rows.length).map
        (fun _ => some (Val.num 5))) := by
  exact ⟨by decide,
    (left_assoc_ten_minus_three_minus_two [] sampleDF [] (by decide)).2.2⟩

/-! ### Claim C7 -/

/-- C7: a token that is not a numeric literal, not a column name, does
not end in `')'`, is not an operator or parenthesis, and is not a bound
variable makes the shunting-yard pass fail with
`UnknownTokenOrVariable`, wherever it occurs (any preceding output, any
operator stack, any following tokens) — no default value is ever
substituted.  `syGo` is shared by `evaluate` and `set_variable`, so this
covers conditions and variable expressions alike. -/
theorem unknown_token_rejected (st : PState) (t : String)
    (rest : List String) (out : List QItem) (stack : List String)
    (h1 : pyIsNumber t = false) (h2 : t ∉ st.data.colNames)
    (h3 : lastIs t ')' = false) (h4 : isOp t = false)
    (h5 : t ≠ "(") (h6 : t ≠ ")") (h7 : alookup st.vars t = none) :
    syGo st (t :: rest) out stack =
      Except.error (Err.unknownTokenOrVariable t) := by
  simp [syGo, h1, h2, h3, h4, h5, h6, h7]

/-- C7 witness: the unknown token `"bogus"` rejected mid-expression. -/
theorem unknown_token_rejected_witness :
    pyIsNumber "bogus" = false ∧ "bogus" ∉ sampleDF.colNames ∧
    lastIs "bogus" ')' = false ∧ isOp "bogus" = false ∧
    alookup ([] : List (String × PExpr)) "bogus" = none ∧
    syGo ⟨[], sampleDF, []⟩ ["bogus", "close"] [] [] =
      Except.error (Err.unknownTokenOrVariable "bogus") := by
  refine ⟨by decide, by decide, by decide, by decide, rfl, ?_⟩
  exact unknown_token_rejected ⟨[], sampleDF, []⟩ "bogus" ["close"] [] []
    (by decide) (by decide) (by decide) (by decide) (by decide) (by decide) rfl

/-! ### Claim C8 -/

/-- C8 counterexample: the claim requires `"foo(abc)"` with `foo`
unregistered to fail with `ArgumentConversionError` (conversion before
lookup); the code looks the name up first and reports
`UnknownIndicatorFunction`. -/
theorem unregistered_indicator_bad_args_error :
    (evaluate ⟨[], sampleDF, []⟩ "foo(abc)").map Prod.fst =
      Except.error (Err.unknownIndicator "foo") ∧
    Err.unknownIndicator "foo" ≠ Err.argumentConversion "foo" := by
  exact ⟨rfl, by decide⟩

/-- C8 amended: for an indicator-call token the parser first looks the
name up in the registry — an absent name is `UnknownIndicatorFunction`
regardless of the arguments — and only for a registered name does it
split and convert the comma-separated arguments, reporting a non-numeric
argument as `ArgumentConversionError`. -/
theorem indicator_lookup_precedes_conversion (st : PState) (t : String)
    (rest : List String) (out : List QItem) (stack : List String)
    (h1 : pyIsNumber t = false) (h2 : t ∉ st.data.colNames)
    (h3 : lastIs t ')' = true)
    (h4 : (hasChar t '.' && containsSub t "shift") = false)
    (h5 : hasChar t '(' = true) :
    (alookup st.indicators (pySplit1 t '(').1 = none →
      syGo st (t :: rest) out stack =
        Except.error (Err.unknownIndicator (pySplit1 t '(').1)) ∧
    (∀ f, alookup st.indicators (pySplit1 t '(').1 = some f →
      allFloats (argsOf t) = none →
      syGo st (t :: rest) out stack =
        Except.error (Err.argumentConversion (pySplit1 t '(').1)) := by
  constructor
  · intro h
    simp [syGo, h1, h2, h3, h4, h5, h]
  · intro f hf h
    simp [syGo, h1, h2, h3, h4, h5, hf, h]

/-- C8 witness: with registry `regBar = {bar}`, the unregistered call
`foo(abc)` reports `UnknownIndicatorFunction` and the registered call
`bar(abc)` with a non-numeric argument reports
`ArgumentConversionError`. -/
theorem indicator_lookup_precedes_conversion_witness :
    pyIsNumber "foo(abc)" = false ∧ "foo(abc)" ∉ sampleDF.colNames ∧
    lastIs "foo(abc)" ')' = true ∧
    (hasChar "foo(abc)" '.' && containsSub "foo(abc)" "shift") = false ∧
    hasChar "foo(abc)" '(' = true ∧
    alookup regBar "foo" = none ∧
    syGo ⟨regBar, sampleDF, []⟩ ["foo(abc)"] [] [] =
      Except.error (Err.unknownIndicator "foo") ∧
    allFloats (argsOf "bar(abc)") = none ∧
    syGo ⟨regBar, sampleDF, []⟩ ["bar(abc)"] [] [] =
      Except.error (Err.argumentConversion "bar") := by
  refine ⟨by decide, by decide, by decide, by decide, by decide, rfl, ?_, by decide, ?_⟩
  · exact (indicator_lookup_precedes_conversion ⟨regBar, sampleDF, []⟩
      "foo(abc)" [] [] [] (by decide) (by decide) (by decide) (by decide)
      (by decide)).1 rfl
  · exact (indicator_lookup_precedes_conversion ⟨regBar, sampleDF, []⟩
      "bar(abc)" [] [] [] (by decide) (by decide) (by decide) (by decide)
      (by decide)).2 (fun _ => PExpr.lit 0) rfl (by decide)

/-! ### Claim C6 -/

/-- C6: after binding `x` to `close`, the token `x.shift(1)` wraps the
bound expression in a lag-by-one transform, so `"x.shift(1) < close"`
compares the previous row's close against the current row's close on
every row past the first (and is `null` on row 0, where no prior row
exists); a shift token whose name is not a bound variable fails with
`UnknownVariableForShift`. -/
theorem shift_references_prior_row (ind : Indicators) (df : DataFrame)
    (h1 : "close" ∈ df.colNames) (h2 : "x.shift(1)" ∉ df.colNames)
    (h3 : "<" ∉ df.colNames) (h4 : "y.shift(1)" ∉ df.colNames) :
    (set_variable ⟨ind, df, []⟩ "x" "close").map PState.vars =
      Except.ok [("x", PExpr.col "close")] ∧
    (evaluate ⟨ind, df, [("x", PExpr.col "close")]⟩ "x.shift(1) < close").map
        Prod.fst =
      Except.ok ((List.range df.rows.length).map (fun i =>
        applyOp "<" (if 1 ≤ i then cellVal df (i - 1) "close" else none)
          (cellVal df i "close"))) ∧
    evaluate ⟨ind, df, [("x", PExpr.col "close")]⟩ "y.shift(1) < close" =
      Except.error (Err.unknownVariableForShift "y") := by
  refine ⟨?_, ?_, ?_⟩
  · have ht : tokenize "close" = ["close"] := by decide
    have hsy : shuntingYard ⟨ind, df, []⟩ (tokenize "close") =
        Except.ok [QItem.expr (PExpr.col "close")] := by
      unfold shuntingYard
      rw [ht]
      rw [syGo_col _ _ _ _ _ (by decide) h1]
      rw [syGo_nil]
      rfl
    rw [set_variable_eq _ _ _ _ _ hsy rfl]
    rfl
  · have ht : tokenize "x.shift(1) < close" = ["x.shift(1)", "<", "close"] := by
      decide
    have hsy : shuntingYard ⟨ind, df, [("x", PExpr.col "close")]⟩
        (tokenize "x.shift(1) < close") =
        Except.ok [QItem.expr (PExpr.shift (PExpr.col "close") 1),
          QItem.expr (PExpr.col "close"), QItem.op "<"] := by
      unfold shuntingYard
      rw [ht]
      rw [syGo_shift ⟨ind, df, [("x", PExpr.col "close")]⟩ "x.shift(1)" _ _ _ 1
        (PExpr.col "close") (by decide) h2 (by decide) (by decide) (by decide)
        rfl]
      rw [syGo_op _ _ _ _ _ (by decide) h3 (by decide) (by decide)]
      rw [syGo_col _ _ _ _ _ (by decide) h1]
      rw [syGo_nil]
      rfl
    rw [evaluate_eq _ _ _ _ hsy rfl]
    show Except.ok (seriesOf df _) = _
    unfold seriesOf
    congr 1
    apply List.map_congr_left
    intro i hi
    have hi' : i < df.rows.length := List.mem_range.mp hi
    simp only [evalExpr]
    congr 1
    rcases Nat.eq_zero_or_pos i with h0 | h0
    · subst h0
      rw [if_neg (by omega), if_neg (by omega)]
    · rw [if_pos (by constructor <;> omega), if_pos (by omega)]
      congr 1
      omega
  · have ht : tokenize "y.shift(1) < close" = ["y.shift(1)", "<", "close"] := by
      decide
    have hsy : shuntingYard ⟨ind, df, [("x", PExpr.col "close")]⟩
        (tokenize "y.shift(1) < close") =
        Except.error (Err.unknownVariableForShift "y") := by
      unfold shuntingYard
      rw [ht]
      rw [syGo_shift_unknown ⟨ind, df, [("x", PExpr.col "close")]⟩ "y.shift(1)"
        _ _ _ 1 (by decide) h4 (by decide) (by decide) (by decide) rfl]
      rfl
    exact evaluate_err_sy _ _ _ hsy

/-- C6 witness: the shift theorem instantiated on the six-bar window
`close = [101, 102, 103, 104, 105, 108]`. -/
theorem shift_references_prior_row_witness :
    "close" ∈ sampleDF6.colNames ∧ "x.shift(1)" ∉ sampleDF6.colNames ∧
    "<" ∉ sampleDF6.colNames ∧ "y.shift(1)" ∉ sampleDF6.colNames ∧
    ((set_variable ⟨[], sampleDF6, []⟩ "x" "close").map PState.vars =
      Except.ok [("x", PExpr.col "close")] ∧
    (evaluate ⟨[], sampleDF6, [("x", PExpr.col "close")]⟩
        "x.shift(1) < close").map Prod.fst =
      Except.ok ((List.range sampleDF6.rows.length).map (fun i =>
        applyOp "<" (if 1 ≤ i then cellVal sampleDF6 (i - 1) "close" else none)
          (cellVal sampleDF6 i "close"))) ∧
    evaluate ⟨[], sampleDF6, [("x", PExpr.col "close")]⟩ "y.shift(1) < close" =
      Except.error (Err.unknownVariableForShift "y")) := by
  exact ⟨by decide, by decide, by decide, by decide,
    shift_references_prior_row [] sampleDF6 (by decide) (by decide) (by decide)
      (by decide)⟩

/-! ### Claim C9 -/

theorem set_variable_ok_shape (st : PState) (n s : String) (st1 : PState)
    (h : set_variable st n s = Except.ok st1) :
    ∃ e, st1 = { st with vars := aupdate st.vars n e } := by
  unfold set_variable at h
  cases hsy : shuntingYard st (tokenize s) with
  | error er => simp [hsy, except_bind_err] at h
  | ok q =>
    cases hrpn : evaluateRPN q with
    | error er => simp [hsy, hrpn, except_bind_ok, except_bind_err] at h
    | ok ex =>
      simp [hsy, hrpn, except_bind_ok] at h
      exact ⟨ex, h.symm⟩

theorem evaluate_ok_state (st : PState) (s : String) (r : List Cell)
    (st2 : PState) (h : evaluate st s = Except.ok (r, st2)) : st2 = st := by
  unfold evaluate at h
  cases hsy : shuntingYard st (tokenize s) with
  | error er => simp [hsy, except_bind_err] at h
  | ok q =>
    cases hrpn : evaluateRPN q with
    | error er => simp [hsy, hrpn, except_bind_ok, except_bind_err] at h
    | ok ex =>
      simp [hsy, hrpn, except_bind_ok] at h
      exact h.2.symm

/-- C9: neither `evaluate` nor `set_variable` mutates the owned data
window; `evaluate` also leaves the variable bindings (indeed the whole
session state) unchanged, and `set_variable n` changes no binding other
than the one for `n`. -/
theorem session_preserves_window_and_bindings (st st1 st2 : PState)
    (n e expr : String) (r : List Cell)
    (h1 : set_variable st n e = Except.ok st1)
    (h2 : evaluate st expr = Except.ok (r, st2)) :
    st1.data = st.data ∧ st1.indicators = st.indicators ∧
    (∀ m, m ≠ n → alookup st1.vars m = alookup st.vars m) ∧
    st2 = st := by
  obtain ⟨ex, rfl⟩ := set_variable_ok_shape st n e st1 h1
  refine ⟨rfl, rfl, ?_, evaluate_ok_state st expr r st2 h2⟩
  intro m hm
  show alookup (aupdate st.vars n ex) m = alookup st.vars m
  rw [alookup_aupdate]
  rw [if_neg (fun h => hm h.symm)]

/-- C9 witness: the frame theorem instantiated on a session holding the
binding `y`, binding `x` to `close` and evaluating `"close"`. -/
theorem session_preserves_window_and_bindings_witness :
    set_variable sessionSt "x" "close" = Except.ok sessionSt1 ∧
    evaluate sessionSt "close" =
      Except.ok ([some (Val.num 1), some (Val.num 2)], sessionSt) ∧
    sessionSt1.data = sessionSt.data ∧
    alookup sessionSt1.vars "y" = alookup sessionSt.vars "y" := by
  have h := session_preserves_window_and_bindings sessionSt sessionSt1 sessionSt
    "x" "close" "close" [some (Val.num 1), some (Val.num 2)] rfl rfl
  exact ⟨rfl, rfl, h.1, h.2.2.1 "y" (by decide)⟩

end TbotEngine
